import Mathlib

/-!
Verification of `check_internet_restriction.py` (kn9ts/careflow).

The script runs a fixed battery of eight network probes, records each
outcome in a mutable results record, derives an `issues_found` list, and
aggregates the pass/fail outcomes into an overall status string.

The embedding below mirrors the Python source:
* the mutable `self.results` dict becomes the `Report` structure, threaded
  explicitly through the probe functions;
* the network collaborators (resolver, TCP connect, HTTP transport,
  subprocess ping runner) become an `Env` of functions returning explicit
  outcome datatypes, including constructors for the exception classes the
  probes catch and a constructor for an unexpected fault (an exception
  outside those classes);
* an uncaught Python exception becomes `Except.error`;
* Python `float` elapsed times and the literal thresholds `0.5`, `0.7`, `3`
  become exact rationals (`ℚ`);
* Python's substring operator `in` becomes `strHas`.
-/

/-- One entry of the `tests` array: `{"name": ..., "passed": ..., "details": ...}`
as appended by `add_result`. -/
structure TestResult where
  name : String
  passed : Bool
  details : String
deriving DecidableEq

/-- The `self.results` dict built in `InternetRestrictionChecker.__init__`:
timestamp, list of test results, overall status string, issues list. -/
structure Report where
  timestamp : String
  tests : List TestResult
  overall_status : String
  issues_found : List String
deriving DecidableEq

/-- `__init__`: fresh results with no tests, status `"unknown"`, no issues.
The timestamp (`datetime.now().isoformat()`) is taken as a parameter. -/
def initReport (ts : String) : Report :=
  { timestamp := ts, tests := [], overall_status := "unknown", issues_found := [] }

/-- `add_result`: append the test record; if it did not pass, also append the
test name to `issues_found`. -/
def add_result (r : Report) (test_name : String) (passed : Bool) (details : String) : Report :=
  { r with
    tests := r.tests ++ [{ name := test_name, passed := passed, details := details }],
    issues_found := if passed then r.issues_found else r.issues_found ++ [test_name] }

/-- `calculate_overall_status`: count passing tests; all passed ⇒ `"clear"`,
at least `total * 0.7` passed ⇒ `"partial_restriction"`, else `"restricted"`.
The Python float literal `0.7` is modelled as the exact rational `0.7`. -/
def calculate_overall_status (r : Report) : Report :=
  let passed_tests := (r.tests.filter (fun t => t.passed)).length
  let total_tests := r.tests.length
  if passed_tests = total_tests then
    { r with overall_status := "clear" }
  else if (passed_tests : ℚ) ≥ (total_tests : ℚ) * 0.7 then
    { r with overall_status := "partial_restriction" }
  else
    { r with overall_status := "restricted" }

/-- `a == b` on characters, lifted to a prefix test on character lists;
models Python's substring matching from the front. -/
def charsPre : List Char → List Char → Bool
  | [], _ => true
  | _ :: _, [] => false
  | a :: as, b :: bs => a == b && charsPre as bs

/-- Does `needle` occur as a contiguous run inside `hay`? -/
def charsHas (needle : List Char) : List Char → Bool
  | [] => charsPre needle []
  | c :: rest => charsPre needle (c :: rest) || charsHas needle rest

/-- Python's `needle in hay` on strings. -/
def strHas (hay needle : String) : Bool :=
  charsHas needle.toList hay.toList

example : strHas "5 received, 0% packet loss" "0% packet loss" = true := by decide
example : strHas "0 received, 100% packet loss" "0% packet loss" = true := by decide
example : strHas "25% packet loss" "0% packet loss" = false := by decide

/-! ## The external collaborators

Each collaborator call site in the Python source can produce a value, raise
one of the exception classes the probe catches, or raise an unexpected fault
(an exception outside every `except` clause of the probe). -/

/-- Behaviour of one `socket.gethostbyname(domain)` call: an address string,
`socket.gaierror`, `socket.timeout`, or an exception of any other class. -/
inductive ResolveResult where
  | addr : String → ResolveResult
  | gaierror : String → ResolveResult
  | timeout : ResolveResult
  | fault : String → ResolveResult
deriving DecidableEq

/-- Is this an exception outside `socket.gaierror`/`socket.timeout`
(and outside `socket.error`, since both of those derive from `OSError`)? -/
def ResolveResult.isFault : ResolveResult → Bool
  | .fault _ => true
  | _ => false

/-- Behaviour of one `sock.connect_ex((host, port))` call: a return code,
`socket.timeout`, or any other exception. -/
inductive ConnectResult where
  | code : Int → ConnectResult
  | timeout : ConnectResult
  | exn : String → ConnectResult
deriving DecidableEq

/-- Behaviour of one `requests.get(url, ...)` call: a response (status code and
the elapsed seconds measured around the call), `requests.exceptions.Timeout`,
`requests.exceptions.ConnectionError`, or any other exception. -/
inductive HttpResult where
  | success : Nat → ℚ → HttpResult
  | timeout : HttpResult
  | connError : String → HttpResult
  | exn : String → HttpResult
deriving DecidableEq

/-- Behaviour of one `subprocess.run(["ping", ...])` call: a completed process
(returncode and stdout), `subprocess.TimeoutExpired`, `FileNotFoundError`, or
any other exception. -/
inductive PingResult where
  | completed : Int → String → PingResult
  | timeoutExpired : PingResult
  | fileNotFound : PingResult
  | exn : String → PingResult
deriving DecidableEq

/-- The ambient collaborators of one run: resolver, TCP connect, the optional
`requests` transport (`REQUESTS_AVAILABLE`), the platform flag
(`sys.platform == "darwin"`), and the subprocess ping runner. -/
structure Env where
  resolve : String → ResolveResult
  connect_ex : String → Nat → ConnectResult
  requests_available : Bool
  http_get : String → HttpResult
  platform_darwin : Bool
  run_ping : List String → PingResult

/-! ## The eight probes

Each probe takes the environment and the current report and yields the updated
report, or `Except.error` when a Python exception escapes the probe (no
handler in the probe matches it; `run_all_checks` has no handler of its own).
The Python methods also return a boolean equal to the recorded `passed` flag;
`run_all_checks` ignores those return values, so they are dropped here. -/

/-- The `test_domains` list of `check_dns_resolution` (domain, dns_server). -/
def dns_test_domains : List (String × String) :=
  [("google.com", "8.8.8.8"), ("cloudflare.com", "1.1.1.1"), ("github.com", "8.8.8.8")]

/-- The `for domain, dns_server in test_domains` loop of `check_dns_resolution`,
carrying `all_passed`. Catches `socket.gaierror` and `socket.timeout` only; a
falsy (empty) address also clears `all_passed` (`else` branch); any other
exception escapes. -/
def dnsResolutionLoop (resolve : String → ResolveResult) :
    List (String × String) → Bool → Except String Bool
  | [], all_passed => .ok all_passed
  | (domain, _) :: rest, all_passed =>
    match resolve domain with
    | .addr a => dnsResolutionLoop resolve rest (if a ≠ "" then all_passed else false)
    | .gaierror _ => dnsResolutionLoop resolve rest false
    | .timeout => dnsResolutionLoop resolve rest false
    | .fault m => .error m

/-- `check_dns_resolution`. -/
def check_dns_resolution (env : Env) (r : Report) : Except String Report := do
  let all_passed ← dnsResolutionLoop env.resolve dns_test_domains true
  .ok (add_result r "DNS Resolution" all_passed
    (if all_passed then "All common domains resolved successfully"
     else "Some domains failed to resolve"))

/-- The `test_domains` list of `check_dns_against_blocked_domains`. -/
def blocked_test_domains : List String :=
  ["google.com", "facebook.com", "youtube.com", "twitter.com", "instagram.com",
   "tiktok.com", "whatsapp.com", "telegram.org", "netflix.com", "reddit.com"]

/-- The loop of `check_dns_against_blocked_domains`, carrying
`(blocked_count, accessible_count)`. A truthy address increments
`accessible_count`; a falsy address increments neither counter;
`socket.gaierror` and `socket.timeout` increment `blocked_count`; any other
exception escapes. -/
def blockedDomainsLoop (resolve : String → ResolveResult) :
    List String → Nat → Nat → Except String (Nat × Nat)
  | [], blocked_count, accessible_count => .ok (blocked_count, accessible_count)
  | domain :: rest, blocked_count, accessible_count =>
    match resolve domain with
    | .addr a =>
      if a ≠ "" then blockedDomainsLoop resolve rest blocked_count (accessible_count + 1)
      else blockedDomainsLoop resolve rest blocked_count accessible_count
    | .gaierror _ => blockedDomainsLoop resolve rest (blocked_count + 1) accessible_count
    | .timeout => blockedDomainsLoop resolve rest (blocked_count + 1) accessible_count
    | .fault m => .error m

/-- `check_dns_against_blocked_domains`: restricted when
`blocked_count > len(test_domains) * 0.5`; the recorded flag is the negation. -/
def check_dns_against_blocked_domains (env : Env) (r : Report) : Except String Report := do
  let counts ← blockedDomainsLoop env.resolve blocked_test_domains 0 0
  let blocked_count := counts.1
  let accessible_count := counts.2
  let total := blocked_test_domains.length
  let is_restricted : Bool := decide ((blocked_count : ℚ) > (total : ℚ) * 0.5)
  let status := !is_restricted
  .ok (add_result r "Domain Accessibility" status
    s!"{accessible_count}/{total} domains accessible, {blocked_count} blocked")

/-- The `ports_to_check` list (port, protocol, host) of `check_port_connectivity`. -/
def ports_to_check : List (Nat × String × String) :=
  [(443, "HTTPS", "google.com"), (80, "HTTP", "google.com"),
   (443, "HTTPS", "cloudflare.com"), (443, "HTTPS", "github.com"),
   (443, "HTTPS", "api.github.com")]

/-- The loop of `check_port_connectivity`, carrying `all_passed`.
`connect_ex` result `0` keeps `all_passed`; a nonzero result, a timeout, or
any exception (`except Exception`) clears it — nothing escapes this probe. -/
def portLoop (connect_ex : String → Nat → ConnectResult) :
    List (Nat × String × String) → Bool → Bool
  | [], all_passed => all_passed
  | (port, _, host) :: rest, all_passed =>
    match connect_ex host port with
    | .code result => portLoop connect_ex rest (if result = 0 then all_passed else false)
    | .timeout => portLoop connect_ex rest false
    | .exn _ => portLoop connect_ex rest false

/-- `check_port_connectivity`. -/
def check_port_connectivity (env : Env) (r : Report) : Except String Report :=
  let all_passed := portLoop env.connect_ex ports_to_check true
  .ok (add_result r "Port Connectivity" all_passed
    (if all_passed then "All tested ports are accessible" else "Some ports are blocked"))

/-- The `test_urls` list of `check_http_response_time`. -/
def http_test_urls : List String :=
  ["https://httpbin.org/get", "https://api.github.com"]

/-- The loop of `check_http_response_time`, carrying
`(all_passed, suspicious_slow)`. A response slower than 5 seconds sets
`suspicious_slow`; `Timeout`, `ConnectionError`, or any exception clears
`all_passed` — nothing escapes this probe. -/
def httpTimeLoop (http_get : String → HttpResult) :
    List String → Bool → Bool → Bool × Bool
  | [], all_passed, suspicious_slow => (all_passed, suspicious_slow)
  | url :: rest, all_passed, suspicious_slow =>
    match http_get url with
    | .success _ elapsed =>
      httpTimeLoop http_get rest all_passed
        (if elapsed > 5 then true else suspicious_slow)
    | .timeout => httpTimeLoop http_get rest false suspicious_slow
    | .connError _ => httpTimeLoop http_get rest false suspicious_slow
    | .exn _ => httpTimeLoop http_get rest false suspicious_slow

/-- `check_http_response_time`: skipped (fail-open) when `requests` is not
available; otherwise runs the loop and folds the slow-response warning into
the detail of a passing outcome. -/
def check_http_response_time (env : Env) (r : Report) : Except String Report :=
  if !env.requests_available then
    .ok (add_result r "HTTP Response Time" true "Test skipped (requests not installed)")
  else
    let res := httpTimeLoop env.http_get http_test_urls true false
    let all_passed := res.1
    let suspicious_slow := res.2
    if suspicious_slow && all_passed then
      .ok (add_result r "HTTP Response Time" true "Response times may indicate throttling")
    else
      .ok (add_result r "HTTP Response Time" all_passed
        (if all_passed then "HTTP responses normal" else "HTTP requests failed"))

/-- The ping command of `check_mtu_size` (macOS `-D` vs Linux `-M dont`). -/
def mtu_args (darwin : Bool) : List String :=
  if darwin then ["ping", "-D", "-c", "3", "-s", "1400", "8.8.8.8"]
  else ["ping", "-c", "3", "-s", "1400", "-M", "dont", "8.8.8.8"]

/-- `check_mtu_size`: exit code 0 passes; a nonzero exit code fails; a
subprocess timeout fails; any other exception, `FileNotFoundError` included,
is caught by `except Exception` and passes fail-open. -/
def check_mtu_size (env : Env) (r : Report) : Except String Report :=
  match env.run_ping (mtu_args env.platform_darwin) with
  | .completed returncode _ =>
    if returncode = 0 then
      .ok (add_result r "MTU Check" true "No fragmentation issues detected")
    else
      .ok (add_result r "MTU Check" false "Potential MTU/fragmentation issues")
  | .timeoutExpired => .ok (add_result r "MTU Check" false "Ping timeout")
  | .fileNotFound => .ok (add_result r "MTU Check" true "Test could not be completed")
  | .exn _ => .ok (add_result r "MTU Check" true "Test could not be completed")

/-- The `dns_servers` list of `check_dns_servers` (ip, name). -/
def dns_servers_list : List (String × String) :=
  [("8.8.8.8", "Google DNS"), ("1.1.1.1", "Cloudflare DNS"),
   ("8.8.4.4", "Google DNS Secondary")]

/-- The loop of `check_dns_servers`: each iteration resolves `"example.com"`
through the system resolver. A result (truthy or falsy) leaves `all_passed`
unchanged (the source only prints on truthy); `socket.error` — which covers
both `gaierror` and `timeout` — clears it; any other exception escapes. -/
def dnsServersLoop (resolve : String → ResolveResult) :
    List (String × String) → Bool → Except String Bool
  | [], all_passed => .ok all_passed
  | _ :: rest, all_passed =>
    match resolve "example.com" with
    | .addr _ => dnsServersLoop resolve rest all_passed
    | .gaierror _ => dnsServersLoop resolve rest false
    | .timeout => dnsServersLoop resolve rest false
    | .fault m => .error m

/-- `check_dns_servers`. -/
def check_dns_servers (env : Env) (r : Report) : Except String Report := do
  let all_passed ← dnsServersLoop env.resolve dns_servers_list true
  .ok (add_result r "DNS Server Check" all_passed
    (if all_passed then "All tested DNS servers responding"
     else "Some DNS servers not responding"))

/-- The ping command of `check_packet_loss` (identical on both platforms). -/
def ping_loss_args : List String := ["ping", "-c", "5", "8.8.8.8"]

/-- `check_packet_loss`: parses the ping stdout with Python's substring
operator — `"0% packet loss" in output` first, then `"100% packet loss"`,
else the partial-loss branch. Timeout fails; a missing ping binary or any
other exception passes fail-open. -/
def check_packet_loss (env : Env) (r : Report) : Except String Report :=
  match env.run_ping ping_loss_args with
  | .completed _ output =>
    if strHas output "0% packet loss" || strHas output "0.0% packet loss" then
      .ok (add_result r "Packet Loss" true "Connection stable")
    else if strHas output "100% packet loss" then
      .ok (add_result r "Packet Loss" false "Complete packet loss detected")
    else
      .ok (add_result r "Packet Loss" false "Packet loss detected")
  | .timeoutExpired => .ok (add_result r "Packet Loss" false "Ping timeout")
  | .fileNotFound => .ok (add_result r "Packet Loss" true "Test skipped (ping not available)")
  | .exn _ => .ok (add_result r "Packet Loss" true "Test could not be completed")

/-- The URLs of `check_http_vs_https`. -/
def dpi_url_http : String := "http://httpbin.org/get"

/-- The HTTPS URL of `check_http_vs_https`. -/
def dpi_url_https : String := "https://httpbin.org/get"

/-- The failure detail of `check_http_vs_https`
(`f"HTTPS({https_time:.2f}s) much slower than HTTP({http_time:.2f}s)"`;
the two-decimal float formatting is rendered with `toString` on `ℚ`). -/
def dpi_fail_details (http_time https_time : ℚ) : String :=
  let ht := toString http_time
  let st := toString https_time
  s!"HTTPS({st}s) much slower than HTTP({ht}s)"

/-- `check_http_vs_https`: skipped (fail-open) when `requests` is missing.
Each request is wrapped in `except Exception`, so neither escapes; a failed
request leaves its time at `None`. The guard `if http_time and https_time`
uses Python truthiness, so a `0.0` elapsed time also skips the comparison.
Fails only when both times are truthy and `https_time > http_time * 3`. -/
def check_http_vs_https (env : Env) (r : Report) : Except String Report :=
  if !env.requests_available then
    .ok (add_result r "DPI Check" true "Test skipped")
  else
    let http_time : Option ℚ :=
      match env.http_get dpi_url_http with
      | .success _ e => some e
      | _ => none
    let https_time : Option ℚ :=
      match env.http_get dpi_url_https with
      | .success _ e => some e
      | _ => none
    match http_time, https_time with
    | some ht, some st =>
      if ht ≠ 0 ∧ st ≠ 0 then
        if st > ht * 3 then
          .ok (add_result r "DPI/Throttling Check" false (dpi_fail_details ht st))
        else
          .ok (add_result r "DPI/Throttling Check" true "No obvious throttling detected")
      else
        .ok (add_result r "DPI/Throttling Check" true "No obvious throttling detected")
    | _, _ =>
      .ok (add_result r "DPI/Throttling Check" true "No obvious throttling detected")

/-- `run_all_checks`: the fixed battery, in source order, followed by
`calculate_overall_status`. There is no `try`/`except` here: an exception
escaping a probe escapes the battery. -/
def run_all_checks (env : Env) (ts : String) : Except String Report := do
  let r := initReport ts
  let r ← check_dns_resolution env r
  let r ← check_dns_against_blocked_domains env r
  let r ← check_port_connectivity env r
  let r ← check_http_response_time env r
  let r ← check_mtu_size env r
  let r ← check_dns_servers env r
  let r ← check_packet_loss env r
  let r ← check_http_vs_https env r
  .ok (calculate_overall_status r)

/-! ## Harness: an arbitrary sequence of `add_result` calls -/

/-- Replay a sequence of `add_result` calls (name, passed, details) against a
report. -/
def record : Report → List (String × Bool × String) → Report
  | r, [] => r
  | r, (n, p, d) :: rest => record (add_result r n p d) rest

/-! ## Persistence format

`main` serializes `self.results` with `json.dump`. The `json` module is a
stdlib collaborator outside this repository, so serialization is modelled at
the level of structured values. -/

/-- Modelled from the spec: a structured persistence value — the spec's
"structured text keyed by `timestamp`, `tests`, `overall_status`,
`issues_found`" — as a JSON-style tree of strings, booleans, arrays and
keyed objects. The textual `json.dump`/`json.load` layer is not in `src/`. -/
inductive Jval where
  | jstr : String → Jval
  | jbool : Bool → Jval
  | jarr : List Jval → Jval
  | jobj : List (String × Jval) → Jval

/-- Modelled from the spec: one `tests` entry serialized as
`{name, passed, details}`. -/
def encodeTest (t : TestResult) : Jval :=
  .jobj [("name", .jstr t.name), ("passed", .jbool t.passed), ("details", .jstr t.details)]

/-- Modelled from the spec: the Report serialized with the four keys
`timestamp`, `tests`, `overall_status`, `issues_found`, mirroring the
`self.results` dict handed to `json.dump`. -/
def encodeReport (r : Report) : Jval :=
  .jobj [("timestamp", .jstr r.timestamp),
         ("tests", .jarr (r.tests.map encodeTest)),
         ("overall_status", .jstr r.overall_status),
         ("issues_found", .jarr (r.issues_found.map Jval.jstr))]

/-- Modelled from the spec: parse one `tests` entry back. -/
def decodeTest : Jval → Option TestResult
  | .jobj [("name", .jstr n), ("passed", .jbool p), ("details", .jstr d)] =>
    some { name := n, passed := p, details := d }
  | _ => none

/-- Modelled from the spec: parse a `tests` array back. -/
def decodeTests : List Jval → Option (List TestResult)
  | [] => some []
  | v :: vs =>
    match decodeTest v, decodeTests vs with
    | some t, some ts => some (t :: ts)
    | _, _ => none

/-- Modelled from the spec: parse an `issues_found` array back. -/
def decodeStrings : List Jval → Option (List String)
  | [] => some []
  | .jstr s :: vs =>
    match decodeStrings vs with
    | some ss => some (s :: ss)
    | none => none
  | _ => none

/-- Modelled from the spec: parse a persisted Report back from the structured
value. -/
def decodeReport : Jval → Option Report
  | .jobj [("timestamp", .jstr ts), ("tests", .jarr tv),
           ("overall_status", .jstr st), ("issues_found", .jarr iv)] =>
    match decodeTests tv, decodeStrings iv with
    | some tests, some issues =>
      some { timestamp := ts, tests := tests, overall_status := st, issues_found := issues }
    | _, _ => none
  | _ => none

/-- Did the resolver resolve this domain to a truthy (non-empty) address? -/
def resolvedB (resolve : String → ResolveResult) (d : String) : Bool :=
  match resolve d with
  | .addr a => decide (a ≠ "")
  | _ => false

/-! ## Helper lemmas -/

theorem bindOk {α β : Type} (a : α) (f : α → Except String β) :
    (Except.ok a >>= f) = f a := rfl

theorem bindErr {α β : Type} (m : String) (f : α → Except String β) :
    ((Except.error m : Except String α) >>= f) = Except.error m := rfl

/-- The pass count equals the total exactly when every recorded test passed. -/
theorem filter_passed_length_eq_iff (p : TestResult → Bool) (l : List TestResult) :
    (l.filter p).length = l.length ↔ ∀ t ∈ l, p t = true := by
  induction l with
  | nil => simp
  | cons x xs ih =>
    cases hx : p x with
    | true => simp [List.filter_cons, hx, ih]
    | false =>
      simp only [List.filter_cons, hx, if_false, Bool.false_eq_true, List.length_cons]
      constructor
      · intro h
        have hle := List.length_filter_le p xs
        omega
      · intro h
        have := h x (List.mem_cons_self x xs)
        simp [hx] at this

theorem issuesOf_add_result (r : Report) (n : String) (p : Bool) (d : String)
    (h : r.issues_found = (r.tests.filter (fun t => !t.passed)).map (fun t => t.name)) :
    (add_result r n p d).issues_found =
      ((add_result r n p d).tests.filter (fun t => !t.passed)).map (fun t => t.name) := by
  cases p <;> simp [add_result, List.filter_append, h]

theorem record_issues_inv (l : List (String × Bool × String)) :
    ∀ r : Report,
      r.issues_found = (r.tests.filter (fun t => !t.passed)).map (fun t => t.name) →
      (record r l).issues_found =
        ((record r l).tests.filter (fun t => !t.passed)).map (fun t => t.name) := by
  induction l with
  | nil => intro r h; simpa [record] using h
  | cons x xs ih =>
    intro r h
    obtain ⟨n, p, d⟩ := x
    simpa [record] using ih (add_result r n p d) (issuesOf_add_result r n p d h)

theorem decodeTest_encodeTest (t : TestResult) : decodeTest (encodeTest t) = some t := by
  cases t; rfl

theorem decodeTests_map_encode (l : List TestResult) :
    decodeTests (l.map encodeTest) = some l := by
  induction l with
  | nil => rfl
  | cons t ts ih => simp [decodeTests, decodeTest_encodeTest, ih]

theorem decodeStrings_map_jstr (l : List String) :
    decodeStrings (l.map Jval.jstr) = some l := by
  induction l with
  | nil => rfl
  | cons s ss ih => simp [decodeStrings, ih]

theorem decodeReport_encodeReport (r : Report) : decodeReport (encodeReport r) = some r := by
  cases r
  simp [encodeReport, decodeReport, decodeTests_map_encode, decodeStrings_map_jstr]

/-! ## Claims -/

/-- C1 counterexample: on the empty outcome list `calculate_overall_status`
does not produce `"unknown"` — with `passed_tests = total_tests = 0` the
first branch fires and assigns `"clear"`. -/
theorem empty_aggregate_not_unknown :
    (calculate_overall_status (initReport "2025-01-01T00:00:00")).overall_status ≠
      "unknown" := by decide

/-- C1 (amended): for a report whose `tests` list is empty (`total == 0`),
`calculate_overall_status` sets `overall_status` to `"clear"`, not
`"unknown"`: the `passed_tests == total_tests` branch fires vacuously.
`"unknown"` is only the pre-aggregation initial value from `__init__`. -/
theorem empty_aggregate_clear (r : Report) (h : r.tests = []) :
    (calculate_overall_status r).overall_status = "clear" := by
  simp [calculate_overall_status, h]

/-- C1 witness: the amended statement at the freshly initialized report. -/
theorem empty_aggregate_clear_witness :
    (calculate_overall_status (initReport "2025-01-01T00:00:00")).overall_status =
      "clear" :=
  empty_aggregate_clear (initReport "2025-01-01T00:00:00") rfl

/-- C10: after `calculate_overall_status` runs, `overall_status` is always one
of `"clear"`, `"partial_restriction"`, `"restricted"` — never `"unknown"` —
for every tests list, the empty one included. -/
theorem aggregate_status_three_valued (r : Report) :
    (calculate_overall_status r).overall_status = "clear" ∨
    (calculate_overall_status r).overall_status = "partial_restriction" ∨
    (calculate_overall_status r).overall_status = "restricted" := by
  by_cases h1 : (r.tests.filter (fun t => t.passed)).length = r.tests.length
  · left; simp [calculate_overall_status, h1]
  · by_cases h2 : ((r.tests.filter (fun t => t.passed)).length : ℚ) ≥
        (r.tests.length : ℚ) * 0.7
    · right; left; simp [calculate_overall_status, h1, h2]
    · right; right; simp [calculate_overall_status, h1, h2]

/-- C5: after any sequence of `add_result` calls on a fresh report, the
`issues_found` list is exactly the names of the non-passing outcomes, in
recording order. -/
theorem issues_found_invariant (ts : String) (l : List (String × Bool × String)) :
    (record (initReport ts) l).issues_found =
      ((record (initReport ts) l).tests.filter (fun t => !t.passed)).map
        (fun t => t.name) :=
  record_issues_inv l (initReport ts) rfl

/-- C9: serializing a report to the structured persistence format (keyed by
`timestamp`, `tests`, `overall_status`, `issues_found`) and parsing it back
reproduces the identical `overall_status` and the identical, order-preserved
`issues_found` list. -/
theorem report_serialization_roundtrip (r : Report) :
    ∃ r' : Report, decodeReport (encodeReport r) = some r' ∧
      r'.overall_status = r.overall_status ∧
      r'.issues_found = r.issues_found :=
  ⟨r, decodeReport_encodeReport r, rfl, rfl⟩

/-- A typical ping stdout reporting complete packet loss. -/
def pingOutput100 : String :=
  "5 packets transmitted, 0 received, 100% packet loss, time 4004ms"

/-- An environment whose ping reports 100% packet loss. -/
def envTotalLoss : Env :=
  { resolve := fun _ => .addr "8.8.8.8",
    connect_ex := fun _ _ => .code 0,
    requests_available := false,
    http_get := fun _ => .exn "unused",
    platform_darwin := false,
    run_ping := fun _ => .completed 1 pingOutput100 }

/-- C2 (code bug): on a ping stdout reporting `100% packet loss`, the Packet
Loss probe records `passed = true` with detail `"Connection stable"` — the
string `"0% packet loss"` occurs inside `"100% packet loss"`, so Python's
substring test takes the 0%-loss branch and the probe's own 100%-loss branch
(`"Complete packet loss detected"`) is unreachable. -/
theorem packet_loss_100_recorded_as_pass :
    strHas pingOutput100 "100% packet loss" = true ∧
    check_packet_loss envTotalLoss (initReport "t") =
      .ok (add_result (initReport "t") "Packet Loss" true "Connection stable") :=
  ⟨by decide, by rfl⟩

/-- An environment without the optional `requests` transport. -/
def envNoRequests : Env :=
  { resolve := fun _ => .addr "93.184.216.34",
    connect_ex := fun _ _ => .code 0,
    requests_available := false,
    http_get := fun _ => .exn "unused",
    platform_darwin := false,
    run_ping := fun _ => .completed 0 "5 packets transmitted, 5 received, 0% packet loss" }

/-- C7: when the HTTP transport (`requests`) is unavailable, both the HTTP
Response Time probe and the DPI probe record `passed = true` with a detail
saying the test was skipped (fail-open). -/
theorem requests_missing_fail_open (env : Env) (r : Report)
    (h : env.requests_available = false) :
    check_http_response_time env r =
      .ok (add_result r "HTTP Response Time" true "Test skipped (requests not installed)") ∧
    check_http_vs_https env r =
      .ok (add_result r "DPI Check" true "Test skipped") := by
  constructor <;> simp [check_http_response_time, check_http_vs_https, h]

/-- C4: for every non-empty tests list — everything passed gives `"clear"`;
otherwise a pass count of at least `0.7 * total` (boundary inclusive) gives
`"partial_restriction"`; a pass count below `0.7 * total` gives
`"restricted"`. -/
theorem aggregate_thresholds (r : Report) (_hne : r.tests ≠ []) :
    ((∀ t ∈ r.tests, t.passed = true) →
      (calculate_overall_status r).overall_status = "clear") ∧
    ((¬ ∀ t ∈ r.tests, t.passed = true) →
      ((r.tests.filter (fun t => t.passed)).length : ℚ) ≥
        (r.tests.length : ℚ) * 0.7 →
      (calculate_overall_status r).overall_status = "partial_restriction") ∧
    (((r.tests.filter (fun t => t.passed)).length : ℚ) <
        (r.tests.length : ℚ) * 0.7 →
      (calculate_overall_status r).overall_status = "restricted") := by
  refine ⟨fun hall => ?_, fun hnall hge => ?_, fun hlt => ?_⟩
  · have h1 : (r.tests.filter (fun t => t.passed)).length = r.tests.length :=
      (filter_passed_length_eq_iff _ _).mpr hall
    simp [calculate_overall_status, h1]
  · have h1 : (r.tests.filter (fun t => t.passed)).length ≠ r.tests.length :=
      fun he => hnall ((filter_passed_length_eq_iff _ _).mp he)
    simp [calculate_overall_status, h1, hge]
  · have h1 : (r.tests.filter (fun t => t.passed)).length ≠ r.tests.length := by
      intro he
      rw [he] at hlt
      have h0 : (0 : ℚ) ≤ (r.tests.length : ℚ) := Nat.cast_nonneg _
      linarith
    have h2 : ¬ ((r.tests.filter (fun t => t.passed)).length : ℚ) ≥
        (r.tests.length : ℚ) * 0.7 := not_le.mpr hlt
    simp [calculate_overall_status, h1, h2]

/-- The loop of `check_dns_against_blocked_domains` counts, among the domains
it visits, exactly the non-resolving ones in `blocked_count` and the
resolving ones in `accessible_count`, as long as the resolver raises no
unexpected fault and returns no empty (falsy) address. -/
theorem blockedDomainsLoop_counts (resolve : String → ResolveResult) :
    ∀ l : List String,
      (∀ d ∈ l, (resolve d).isFault = false) →
      (∀ d ∈ l, resolve d ≠ .addr "") →
      ∀ b a : Nat,
        blockedDomainsLoop resolve l b a =
          .ok (b + (l.filter (fun d => !resolvedB resolve d)).length,
               a + (l.filter (fun d => resolvedB resolve d)).length) := by
  intro l
  induction l with
  | nil => intro _ _ b a; simp [blockedDomainsLoop]
  | cons d rest ih =>
    intro hf ha b a
    have hfr : ∀ x ∈ rest, (resolve x).isFault = false :=
      fun x hx => hf x (List.mem_cons_of_mem _ hx)
    have har : ∀ x ∈ rest, resolve x ≠ .addr "" :=
      fun x hx => ha x (List.mem_cons_of_mem _ hx)
    cases hres : resolve d with
    | addr s =>
      have hs : s ≠ "" := by
        intro hse
        exact ha d (List.mem_cons_self d rest) (by rw [hres, hse])
      have hrb : resolvedB resolve d = true := by simp [resolvedB, hres, hs]
      rw [show blockedDomainsLoop resolve (d :: rest) b a =
            blockedDomainsLoop resolve rest b (a + 1) by
          simp [blockedDomainsLoop, hres, hs]]
      rw [ih hfr har b (a + 1)]
      simp [List.filter_cons, hrb]
      omega
    | gaierror m =>
      have hrb : resolvedB resolve d = false := by simp [resolvedB, hres]
      rw [show blockedDomainsLoop resolve (d :: rest) b a =
            blockedDomainsLoop resolve rest (b + 1) a by
          simp [blockedDomainsLoop, hres]]
      rw [ih hfr har (b + 1) a]
      simp [List.filter_cons, hrb]
      omega
    | timeout =>
      have hrb : resolvedB resolve d = false := by simp [resolvedB, hres]
      rw [show blockedDomainsLoop resolve (d :: rest) b a =
            blockedDomainsLoop resolve rest (b + 1) a by
          simp [blockedDomainsLoop, hres]]
      rw [ih hfr har (b + 1) a]
      simp [List.filter_cons, hrb]
      omega
    | fault m =>
      have := hf d (List.mem_cons_self d rest)
      rw [hres] at this
      simp [ResolveResult.isFault] at this

/-- C6: provided the resolver raises no unexpected fault and returns no empty
address over the 10 fixed accessibility-test domains, the Domain
Accessibility probe records `passed = true` exactly when the fraction of
domains resolved is at least `0.5`. -/
theorem domain_accessibility_threshold (env : Env) (r : Report)
    (hf : ∀ d ∈ blocked_test_domains, (env.resolve d).isFault = false)
    (ha : ∀ d ∈ blocked_test_domains, env.resolve d ≠ .addr "") :
    ∃ passed details,
      check_dns_against_blocked_domains env r =
        .ok (add_result r "Domain Accessibility" passed details) ∧
      (passed = true ↔
        ((blocked_test_domains.filter (fun d => resolvedB env.resolve d)).length : ℚ) /
          (blocked_test_domains.length : ℚ) ≥ 0.5) := by
  have hloop := blockedDomainsLoop_counts env.resolve blocked_test_domains hf ha 0 0
  simp only [check_dns_against_blocked_domains, hloop, bindOk]
  refine ⟨_, _, rfl, ?_⟩
  have hlen : blocked_test_domains.length = 10 := rfl
  have hpart : 10 =
      (blocked_test_domains.filter (fun d => resolvedB env.resolve d)).length +
      (blocked_test_domains.filter (fun d => !resolvedB env.resolve d)).length := by
    have := List.length_eq_length_filter_add
      (l := blocked_test_domains) (fun d => resolvedB env.resolve d)
    simpa [hlen] using this
  set R := (blocked_test_domains.filter (fun d => resolvedB env.resolve d)).length with hR
  set NR := (blocked_test_domains.filter (fun d => !resolvedB env.resolve d)).length with hNR
  have key1 : (!decide ((NR : ℚ) > (blocked_test_domains.length : ℚ) * 0.5)) = true ↔
      NR ≤ 5 := by
    simp only [hlen, Bool.not_eq_true', decide_eq_false_iff_not, not_lt]
    constructor
    · intro h
      have h5 : (NR : ℚ) ≤ 5 := by push_cast at h; linarith
      exact_mod_cast h5
    · intro h
      have h5 : (NR : ℚ) ≤ 5 := by exact_mod_cast h
      push_cast
      linarith
  have key2 : ((R : ℚ) / (blocked_test_domains.length : ℚ) ≥ 0.5) ↔ 5 ≤ R := by
    rw [hlen, ge_iff_le]
    push_cast
    rw [le_div_iff₀ (by norm_num : (0 : ℚ) < 10)]
    rw [show ((0.5 : ℚ) * 10) = 5 by norm_num]
    exact_mod_cast Iff.rfl
  rw [Nat.zero_add, key1, key2]
  omega

/-- If a call to `add_result` produced the one appended outcome `t`, then `t`
is exactly the recorded entry. -/
theorem appended_outcome (r : Report) (n : String) (p : Bool) (d : String) (t : TestResult)
    (h : (add_result r n p d).tests = r.tests ++ [t]) :
    t = { name := n, passed := p, details := d } := by
  simp only [add_result] at h
  simpa using (List.append_cancel_left h).symm

/-- C8: the DPI/Throttling probe records a failing outcome only when both the
HTTP and the HTTPS request succeed and the HTTPS elapsed time exceeds three
times the HTTP elapsed time; in every other case (either request failing
included) the recorded outcome passes. -/
theorem dpi_fail_only_when_3x (env : Env) (r res : Report)
    (hok : check_http_vs_https env r = .ok res)
    (t : TestResult) (ht : res.tests = r.tests ++ [t])
    (hfail : t.passed = false) :
    ∃ c1 e1 c2 e2,
      env.http_get dpi_url_http = .success c1 e1 ∧
      env.http_get dpi_url_https = .success c2 e2 ∧
      e2 > e1 * 3 := by
  by_cases hreq : env.requests_available = true
  · cases hh1 : env.http_get dpi_url_http with
    | success c1 e1 =>
      cases hh2 : env.http_get dpi_url_https with
      | success c2 e2 =>
        simp only [check_http_vs_https, hreq, Bool.not_true, Bool.false_eq_true,
          if_false, hh1, hh2] at hok
        split at hok
        · split at hok
          next hgt =>
            simp only [Except.ok.injEq] at hok
            subst hok
            exact ⟨c1, e1, c2, e2, rfl, rfl, hgt⟩
          next =>
            simp only [Except.ok.injEq] at hok
            subst hok
            rw [appended_outcome _ _ _ _ _ ht] at hfail
            simp at hfail
        · simp only [Except.ok.injEq] at hok
          subst hok
          rw [appended_outcome _ _ _ _ _ ht] at hfail
          simp at hfail
      | timeout =>
        simp only [check_http_vs_https, hreq, Bool.not_true, Bool.false_eq_true,
          if_false, hh1, hh2, Except.ok.injEq] at hok
        subst hok
        rw [appended_outcome _ _ _ _ _ ht] at hfail
        simp at hfail
      | connError m =>
        simp only [check_http_vs_https, hreq, Bool.not_true, Bool.false_eq_true,
          if_false, hh1, hh2, Except.ok.injEq] at hok
        subst hok
        rw [appended_outcome _ _ _ _ _ ht] at hfail
        simp at hfail
      | exn m =>
        simp only [check_http_vs_https, hreq, Bool.not_true, Bool.false_eq_true,
          if_false, hh1, hh2, Except.ok.injEq] at hok
        subst hok
        rw [appended_outcome _ _ _ _ _ ht] at hfail
        simp at hfail
    | timeout =>
      simp only [check_http_vs_https, hreq, Bool.not_true, Bool.false_eq_true,
        if_false, hh1, Except.ok.injEq] at hok
      subst hok
      rw [appended_outcome _ _ _ _ _ ht] at hfail
      simp at hfail
    | connError m =>
      simp only [check_http_vs_https, hreq, Bool.not_true, Bool.false_eq_true,
        if_false, hh1, Except.ok.injEq] at hok
      subst hok
      rw [appended_outcome _ _ _ _ _ ht] at hfail
      simp at hfail
    | exn m =>
      simp only [check_http_vs_https, hreq, Bool.not_true, Bool.false_eq_true,
        if_false, hh1, Except.ok.injEq] at hok
      subst hok
      rw [appended_outcome _ _ _ _ _ ht] at hfail
      simp at hfail
  · rw [Bool.not_eq_true] at hreq
    simp only [check_http_vs_https, hreq, Bool.not_false, if_true, Except.ok.injEq] at hok
    subst hok
    rw [appended_outcome _ _ _ _ _ ht] at hfail
    simp at hfail

/-- An environment where both DPI requests succeed and HTTPS takes 4 seconds
against HTTP's 1 second. -/
def envDpiSlow : Env :=
  { resolve := fun _ => .addr "1.2.3.4",
    connect_ex := fun _ _ => .code 0,
    requests_available := true,
    http_get := fun u => if u = dpi_url_https then .success 200 4 else .success 200 1,
    platform_darwin := false,
    run_ping := fun _ => .completed 0 "5 packets transmitted, 5 received, 0% packet loss" }

/-- C8 witness: at the concrete slow-HTTPS environment the failing DPI outcome
does come with both requests succeeding and a greater-than-3× ratio. -/
theorem dpi_fail_only_when_3x_witness :
    ∃ c1 e1 c2 e2,
      envDpiSlow.http_get dpi_url_http = .success c1 e1 ∧
      envDpiSlow.http_get dpi_url_https = .success c2 e2 ∧
      e2 > e1 * 3 :=
  dpi_fail_only_when_3x envDpiSlow (initReport "t")
    (add_result (initReport "t") "DPI/Throttling Check" false (dpi_fail_details 1 4))
    (by simp only [check_http_vs_https, envDpiSlow, dpi_url_http, dpi_url_https]
        rw [if_neg (by decide : ¬("http://httpbin.org/get" : String) = "https://httpbin.org/get")]
        norm_num)
    { name := "DPI/Throttling Check", passed := false, details := dpi_fail_details 1 4 }
    (by rfl) (by rfl)

/-- The four accessibility-test domains that still resolve in the C6 witness
environment. -/
def accessible_four : List String :=
  ["google.com", "facebook.com", "youtube.com", "twitter.com"]

/-- An environment whose resolver fails (`gaierror`) for 6 of the 10
accessibility-test domains. -/
def envSixBlocked : Env :=
  { resolve := fun d =>
      if accessible_four.contains d then .addr "142.250.80.46"
      else .gaierror "Name or service not known",
    connect_ex := fun _ _ => .code 0,
    requests_available := false,
    http_get := fun _ => .exn "unused",
    platform_darwin := false,
    run_ping := fun _ => .completed 0 "5 packets transmitted, 5 received, 0% packet loss" }

/-- C6 witness: the threshold statement at a resolver failing 6 of the 10
domains (so the probe records `passed = false` there). -/
theorem domain_accessibility_threshold_witness :
    ∃ passed details,
      check_dns_against_blocked_domains envSixBlocked (initReport "t") =
        .ok (add_result (initReport "t") "Domain Accessibility" passed details) ∧
      (passed = true ↔
        ((blocked_test_domains.filter
            (fun d => resolvedB envSixBlocked.resolve d)).length : ℚ) /
          (blocked_test_domains.length : ℚ) ≥ 0.5) :=
  domain_accessibility_threshold envSixBlocked (initReport "t") (by decide) (by decide)

/-- An environment whose resolver raises an exception outside
`socket.gaierror` and `socket.timeout` (e.g. a `UnicodeError`). -/
def envFaulty : Env :=
  { resolve := fun _ => .fault "unexpected resolver fault",
    connect_ex := fun _ _ => .code 0,
    requests_available := false,
    http_get := fun _ => .exn "unused",
    platform_darwin := false,
    run_ping := fun _ => .fileNotFound }

/-- C3 counterexample: with a resolver that raises a non-DNS exception, the
whole battery aborts — `run_all_checks` propagates the fault instead of
recording a failing outcome and continuing, so no report is produced at
all. -/
theorem battery_aborts_on_resolver_fault :
    run_all_checks envFaulty "t" = .error "unexpected resolver fault" := by rfl

/-- C3 (amended): `run_all_checks` has no battery-boundary fault handling.
An unexpected fault (outside the probe's own `except` clauses) raised by the
resolver in the DNS Resolution probe — the battery's first probe — propagates
out of `run_all_checks`, aborting the run before any remaining probe
executes; no failing outcome recording the fault is appended. Only probes
with their own broad internal handlers contain unexpected faults. -/
theorem dns_fault_aborts_battery (env : Env) (ts m : String)
    (h : env.resolve "google.com" = .fault m) :
    run_all_checks env ts = .error m := by
  simp [run_all_checks, check_dns_resolution, dns_test_domains, dnsResolutionLoop, h,
    bindOk, bindErr]

/-- C3 witness: the amended statement at the concrete faulting environment. -/
theorem dns_fault_aborts_battery_witness :
    run_all_checks envFaulty "w" = .error "unexpected resolver fault" :=
  dns_fault_aborts_battery envFaulty "w" "unexpected resolver fault" rfl

/-- A report with exactly 7 of 10 outcomes passing. -/
def rep7of10 : Report :=
  { timestamp := "t",
    tests :=
      [⟨"T1", true, "d"⟩, ⟨"T2", true, "d"⟩, ⟨"T3", true, "d"⟩, ⟨"T4", true, "d"⟩,
       ⟨"T5", true, "d"⟩, ⟨"T6", true, "d"⟩, ⟨"T7", true, "d"⟩,
       ⟨"T8", false, "d"⟩, ⟨"T9", false, "d"⟩, ⟨"T10", false, "d"⟩],
    overall_status := "unknown",
    issues_found := ["T8", "T9", "T10"] }

/-- C4 witness: exactly 70% passing (7 of 10) lands on the inclusive boundary
and aggregates to `"partial_restriction"`. -/
theorem aggregate_thresholds_witness :
    (calculate_overall_status rep7of10).overall_status = "partial_restriction" :=
  (aggregate_thresholds rep7of10 (by decide)).2.1 (by decide)
    (by norm_num [rep7of10])

/-- C7 witness: the fail-open outcomes in a concrete transport-less
environment. -/
theorem requests_missing_fail_open_witness :
    check_http_response_time envNoRequests (initReport "t") =
      .ok (add_result (initReport "t") "HTTP Response Time" true
        "Test skipped (requests not installed)") ∧
    check_http_vs_https envNoRequests (initReport "t") =
      .ok (add_result (initReport "t") "DPI Check" true "Test skipped") :=
  requests_missing_fail_open envNoRequests (initReport "t") rfl
